import Mathlib

/-!
# chai-fetch-mock: route selection and the flag-guarded checks

A shallow embedding of `src/index.js`, the plug-in
`module.exports = (chai, utils) => { ... }`.

* An assertion chain is the record of its flags: the subject (`this._obj`), the
  `'fetchMock'` flag, the `'negate'` flag, and all remaining flags, which the
  plug-in never looks at.
* A JavaScript procedure is a function `Chain → Except Err Val × Chain`: it
  returns a value or throws, and leaves a chain behind.  A function body
  without a `return` statement returns `undefined`; a call in statement
  position drops the value of the callee (`Outcome.dropValue`).
* The fetch-mock object is a record of what the plug-in reads from it: its own
  keys, its routes and the four query methods.
* Chai and fetch-mock are libraries outside the repository.  The assertion
  primitives the plug-in calls are modelled from the specification, next to the
  plug-in; Chai's deep equality is left open as a field of the `Chai` parameter.
-/

namespace ChaiFetchMock

/-! ## Values, subjects, errors, chains -/

/-- JavaScript data as it occurs in recorded calls: argument lists and option objects. -/
inductive Val where
  | undefined
  | null
  | bool (b : Bool)
  | num (n : Int)
  | str (s : String)
  | arr (items : List Val)
  | obj (fields : List (String × Val))

/-- A route descriptor of the fetch-mock object.  The plug-in reads only `r.name`;
`none` stands for a route without a (string) name. -/
structure Route where
  name : Option String

/-- The subject under test, `this._obj`, as far as the plug-in looks at it. -/
structure Subject where
  /-- Text of the subject inside a template literal. -/
  toStr : String
  /-- Own enumerable keys of the subject. -/
  keys : List String
  /-- The `routes` property; `none` when it is missing. -/
  routes : Option (List Route)
  /-- Query `called(name)`. -/
  called : String → Bool
  /-- Query `lastCall(name)`; `Val.undefined` when no call was recorded. -/
  lastCall : String → Val
  /-- Query `lastUrl(name)`; `none` (undefined) when no call was recorded. -/
  lastUrl : String → Option String
  /-- Query `lastOptions(name)`; `Val.undefined` when no call was recorded. -/
  lastOptions : String → Val

/-- What a procedure can throw.  An `assertion` error carries the message text
that was handed to the assertion and the expected and actual values handed to
it (`none` where none is handed over). -/
inductive Err where
  | assertion (message : String) (expected actual : Option Val)
  | thrown (message : String)

/-- The message text of an error. -/
def Err.message : Err → String
  | .assertion m _ _ => m
  | .thrown m => m

/-- The actual value carried by an error. -/
def Err.actual : Err → Option Val
  | .assertion _ _ a => a
  | .thrown _ => none

/-- The expected value carried by an error. -/
def Err.expected : Err → Option Val
  | .assertion _ e _ => e
  | .thrown _ => none

/-- An assertion chain: the subject, the two flags the plug-in reads, and the rest. -/
structure Chain where
  /-- The subject, `this._obj`. -/
  _obj : Subject
  /-- The flag stored under the key `'fetchMock'`; `none` when it was never set. -/
  fetchMock : Option String
  /-- The flag `'negate'`, set by `.not`. -/
  negate : Bool
  /-- All other flags of the chain, by key. -/
  others : List (String × Val)

/-- Result of running a procedure on a chain: the value returned or the error
thrown, and the chain as the procedure leaves it. -/
abbrev Outcome := Except Err Val × Chain

/-- Whether a procedure completed without throwing. -/
def Outcome.passes (o : Outcome) : Bool :=
  match o.1 with
  | .ok _ => true
  | .error _ => false

/-- A call in statement position inside a function that has no `return`: the
callee runs, a value it returns is dropped and the caller returns `undefined`;
an error it throws passes through. -/
def Outcome.dropValue (o : Outcome) : Outcome :=
  match o.1 with
  | .ok _ => (.ok .undefined, o.2)
  | .error e => (.error e, o.2)

/-- The first parameter of the plug-in, `chai`, as far as its behaviour is not
fixed below: the deep equality behind `Assertion#eql`, which the specification
leaves to the host library (section 9). -/
structure Chai where
  eql : Val → Val → Bool

/-! ## The Chai primitives the plug-in calls -/

/-- Modelled from the spec: Chai's `expect(obj)`, which is not part of the
repository.  Section 3: a chain is created at the start of an expression and
carries no marker flag until a route is selected. -/
def expect (obj : Subject) : Chain :=
  { _obj := obj, fetchMock := none, negate := false, others := [] }

/-- Modelled from the spec: Chai's language chain `.not`, which is not part of
the repository.  Section 4.3: the negated form of a check; it sets the flag
`'negate'` and nothing else. -/
def Chain.not (this : Chain) : Chain :=
  { this with negate := true }

namespace utils

/-- Modelled from the spec: Chai's `utils.flag(this, 'fetchMock')`, which is
not part of the repository.  Section 2: the flag store holds a single marker
value per chain, read by every later assertion of the chain. -/
def flag (this : Chain) : Option String :=
  this.fetchMock

/-- Modelled from the spec: Chai's `utils.flag(this, 'fetchMock', value)`,
which is not part of the repository.  Section 4.1: sets the marker flag of the
current chain to the given value. -/
def setFlag (this : Chain) (value : String) : Chain :=
  { this with fetchMock := some value }

end utils

namespace Assertion

/-- Modelled from the spec: Chai's `new Assertion(obj, msg).include.any.keys(expected)`,
which is not part of the repository.  Section 4.1: the subject must possess at
least one of the capability markers; otherwise the check fails with the
message describing the subject. -/
def includeAnyKeys (obj : Subject) (msg : String) (expected : List String) : Except Err Unit :=
  if expected.any (fun k => obj.keys.contains k) then .ok ()
  else .error (.assertion msg none none)

/-- Modelled from the spec: Chai's `new Assertion(str, msg).oneOf(list)`, which
is not part of the repository.  Section 4.1: the name must appear among the
listed names; otherwise the check fails with the message naming it. -/
def oneOf (str : String) (msg : String) (list : List (Option String)) : Except Err Unit :=
  if list.contains (some str) then .ok ()
  else .error (.assertion msg none none)

/-- Modelled from the spec: Chai's `new Assertion(obj).eql(expected)`, which is
not part of the repository.  Section 4.4: deep structural equality of the
recorded value and the expected one.  The assertion is a fresh one: no flag of
the calling chain reaches it. -/
def eql (chai : Chai) (obj expected : Val) : Except Err Unit :=
  if chai.eql expected obj then .ok ()
  else .error (.assertion "expected #{this} to deeply equal #{exp}" (some expected) (some obj))

/-- Modelled from the spec: Chai's `this.assert(expr, msg, negateMsg, expected, actual)`,
which is not part of the repository.  Sections 4.3 and 4.5: the positive form
passes when the expression is true and the negated form when it is false; a
failure reports the message of its form together with the expected and the
actual value. -/
def assert (this : Chain) (expr : Bool) (msg negateMsg : String)
    (expected actual : Option Val) : Outcome :=
  let ok := if this.negate then !expr else expr
  if ok then (.ok .undefined, this)
  else (.error (.assertion (if this.negate then negateMsg else msg) expected actual), this)

end Assertion

/-- A check on a fresh assertion as the last statement of a procedure: an error
it throws aborts the procedure, otherwise the procedure returns `undefined`;
the calling chain is left as it is. -/
def liftFresh (r : Except Err Unit) (this : Chain) : Outcome :=
  match r with
  | .ok _ => (.ok .undefined, this)
  | .error e => (.error e, this)

/-! ## The plug-in -/

/-- The call `withFlagCheck(callback)(_super)(...args)` on the chain `this`
(index.js, lines 16-30).  `if (route)` is JavaScript truthiness: an unset flag
and the empty string both take the `else` branch.  Both branches are calls in
statement position and the function has no `return`. -/
def withFlagCheck {A : Type} (callback : String → A → Chain → Outcome)
    (_super : A → Chain → Outcome) (args : A) (this : Chain) : Outcome :=
  match utils.flag this with
  | some route =>
    if route ≠ "" then
      -- Use a chai-fetch-mock method/property if a route has been set in the assertion chain
      (callback route args this).dropValue
    else
      -- Otherwise, fall back to a method/property with the same name if it exists
      (_super args this).dropValue
  | none => (_super args this).dropValue

/-- The method `route(str)` added by `Assertion.addMethod` (index.js, lines 38-48). -/
def route (str : String) (this : Chain) : Outcome :=
  -- Check if the object is fetch-mock
  match Assertion.includeAnyKeys this._obj
      ("Expected " ++ this._obj.toStr ++ " to be a fetch-mock object")
      ["fetchMock", "realFetch"] with
  | .error e => (.error e, this)
  | .ok _ =>
    -- Check if the route exists
    match this._obj.routes with
    | none => (.error (.thrown "Cannot read property 'map' of undefined"), this)
    | some rs =>
      let routes := rs.map (fun r => r.name)
      match Assertion.oneOf str ("Expected " ++ str ++ " to be a fetch-mock route") routes with
      | .error e => (.error e, this)
      | .ok _ =>
        -- Store the matcher as a flag
        (.ok .undefined, utils.setFlag this str)

/-- The custom check handed to `withFlagCheck` for `called` (index.js, lines 54-60). -/
def calledCallback (route : String) (_args : Unit) (this : Chain) : Outcome :=
  Assertion.assert this (this._obj.called route == true)
    ("Expected route \"" ++ route ++ "\" to have been called")
    ("Expected route \"" ++ route ++ "\" to not have been called")
    none none

/-- The custom check handed to `withFlagCheck` for `args` (index.js, lines 67-71). -/
def argsCallback (chai : Chai) (route : String) (args : Val) (this : Chain) : Outcome :=
  let lastArgs := this._obj.lastCall route
  liftFresh (Assertion.eql chai lastArgs args) this

/-- The text of an optional URL handed over as the actual value. -/
def urlVal : Option String → Val
  | some u => .str u
  | none => .undefined

/-- The custom check handed to `withFlagCheck` for `url` (index.js, lines 78-88). -/
def urlCallback (route : String) (url : String) (this : Chain) : Outcome :=
  let lastUrl := this._obj.lastUrl route
  Assertion.assert this (lastUrl == some url)
    ("Expected route \"" ++ route ++ "\" to have been called with URL " ++ url)
    ("Expected route \"" ++ route ++ "\" to not have been called with URL " ++ url)
    (some (.str url))
    (some (urlVal lastUrl))

/-- The custom check handed to `withFlagCheck` for `options` (index.js, lines 95-99). -/
def optionsCallback (chai : Chai) (route : String) (opts : Val) (this : Chain) : Outcome :=
  let lastOpts := this._obj.lastOptions route
  liftFresh (Assertion.eql chai lastOpts opts) this

/-- The property `called` after `Assertion.overwriteProperty('called', ...)`;
`_super` is the getter that was installed before. -/
def called (_super : Unit → Chain → Outcome) (this : Chain) : Outcome :=
  withFlagCheck calledCallback _super () this

/-- The method `args` after `Assertion.overwriteMethod('args', ...)`. -/
def args (chai : Chai) (_super : Val → Chain → Outcome) (expected : Val) (this : Chain) : Outcome :=
  withFlagCheck (argsCallback chai) _super expected this

/-- The method `url` after `Assertion.overwriteMethod('url', ...)`. -/
def url (_super : String → Chain → Outcome) (expected : String) (this : Chain) : Outcome :=
  withFlagCheck urlCallback _super expected this

/-- The method `options` after `Assertion.overwriteMethod('options', ...)`. -/
def options (chai : Chai) (_super : Val → Chain → Outcome) (expected : Val) (this : Chain) : Outcome :=
  withFlagCheck (optionsCallback chai) _super expected this

/-- The error of `route` on a subject that is not a fetch-mock object. -/
def shapeMismatch (obj : Subject) : Err :=
  .assertion ("Expected " ++ obj.toStr ++ " to be a fetch-mock object") none none

/-- The error of `route` on a name that is not a registered route. -/
def unknownRoute (str : String) : Err :=
  .assertion ("Expected " ++ str ++ " to be a fetch-mock route") none none

/-! ## Sample data: the fetch-mock object of the test suite -/

mutual
/-- Structural equality of values, a sample deep equality for `Chai.eql`. -/
def structEq : Val → Val → Bool
  | .undefined, .undefined => true
  | .null, .null => true
  | .bool a, .bool b => a == b
  | .num a, .num b => a == b
  | .str a, .str b => a == b
  | .arr xs, .arr ys => structEqList xs ys
  | .obj fs, .obj gs => structEqFields fs gs
  | _, _ => false
/-- Structural equality of two arrays, item by item. -/
def structEqList : List Val → List Val → Bool
  | [], [] => true
  | x :: xs, y :: ys => structEq x y && structEqList xs ys
  | _, _ => false
/-- Structural equality of two field lists, field by field. -/
def structEqFields : List (String × Val) → List (String × Val) → Bool
  | [], [] => true
  | (k, x) :: xs, (l, y) :: ys => k == l && structEq x y && structEqFields xs ys
  | _, _ => false
end

/-- A sample `chai` parameter. -/
def sampleChai : Chai :=
  { eql := structEq }

/-- One call recorded by a fetch-mock object: the name of the route that
matched it, its URL and its options. -/
structure Call where
  route : String
  url : String
  options : Val

/-- Modelled from the spec: a fetch-mock object, which is not part of the
repository, with the given routes and the given call history (oldest call
first).  Section 6: the capability markers, the list of route descriptors, and
the four queries by route name, the last three answering from the most recent
call of the route or with nothing when there is none. -/
def mockWith (routes : List Route) (calls : List Call) : Subject :=
  { toStr := "[object Object]"
    keys := ["fetchMock", "realFetch", "routes"]
    routes := some routes
    called := fun name => calls.any (fun c => c.route == name)
    lastCall := fun name =>
      match (calls.filter (fun c => c.route == name)).getLast? with
      | some c => .arr [.str c.url, c.options]
      | none => .undefined
    lastUrl := fun name =>
      match (calls.filter (fun c => c.route == name)).getLast? with
      | some c => some c.url
      | none => none
    lastOptions := fun name =>
      match (calls.filter (fun c => c.route == name)).getLast? with
      | some c => c.options
      | none => .undefined }

/-- The routes registered in test.js: `/cats`, `/dogs` and the pattern named `unicorns`. -/
def testRoutes : List Route :=
  [⟨some "/cats"⟩, ⟨some "/dogs"⟩, ⟨some "unicorns"⟩]

/-- The options of the call to `/dogs` in test.js. -/
def dogsOptions : Val :=
  .obj [("method", .str "post"), ("body", .obj [("doggos", .bool true)])]

/-- The options of the second call to `/dogs` in test.js, with one more field. -/
def puppersOptions : Val :=
  .obj [("method", .str "post"), ("body", .obj [("doggos", .bool true)]), ("puppers", .bool true)]

/-- The fetch-mock object of test.js after `fetch('/dogs', args)` and
`fetch('/unicorns/1')`; `/cats` was not called. -/
def testMock : Subject :=
  mockWith testRoutes [⟨"/dogs", "/dogs", dogsOptions⟩, ⟨"unicorns", "/unicorns/1", .undefined⟩]

/-- The fetch-mock object of test.js after `fetch('/cats', opts)` with the method
`get` as the only option and `fetch('/dogs', args)` with the additional field. -/
def testMock2 : Subject :=
  mockWith testRoutes
    [⟨"/cats", "/cats", .obj [("method", .str "get")]⟩, ⟨"/dogs", "/dogs", puppersOptions⟩]

/-- The empty object of test.js, which is not a fetch-mock object. -/
def emptyObject : Subject :=
  { toStr := "[object Object]"
    keys := []
    routes := none
    called := fun _ => false
    lastCall := fun _ => .undefined
    lastUrl := fun _ => none
    lastOptions := fun _ => .undefined }

/-- An object that is not a fetch-mock object (no marker among its keys) although
it has a route named `/cats`. -/
def routesOnly : Subject :=
  { toStr := "[object Object]"
    keys := ["routes"]
    routes := some [⟨some "/cats"⟩]
    called := fun _ => false
    lastCall := fun _ => .undefined
    lastUrl := fun _ => none
    lastOptions := fun _ => .undefined }

/-- A fetch-mock object whose only route is named by the empty string and was
called once, as `fetch('/x', opts)` with the method `get` as its only option. -/
def unnamedCalled : Subject :=
  mockWith [⟨some ""⟩] [⟨"", "/x", .obj [("method", .str "get")]⟩]

/-- A fetch-mock object whose only route is named by the empty string and was
never called. -/
def unnamedIdle : Subject :=
  mockWith [⟨some ""⟩] []

/-- Modelled from the spec: the prior implementation of a method name that
nothing defines, which is Chai's and not part of the repository.  Section 4.2:
it raises NotImplemented. -/
def notAFunction {A : Type} (name : String) (_args : A) (this : Chain) : Outcome :=
  (.error (.thrown (name ++ " is not a function")), this)

/-- A prior getter that does nothing and passes. -/
def noGetter (_args : Unit) (this : Chain) : Outcome :=
  (.ok .undefined, this)

/-- A prior method of another plug-in that checks nothing and returns the string
`prior-value`. -/
def priorValue (_args : Val) (this : Chain) : Outcome :=
  (.ok (.str "prior-value"), this)

/-- A prior implementation that notes its call among the other flags of the
chain and passes. -/
def recordCall {A : Type} (name : String) (_args : A) (this : Chain) : Outcome :=
  (.ok .undefined, { this with others := (name, .null) :: this.others })

/-! ## Route selection -/

/-- The shape check of `route` passes exactly when one of the two markers is a key. -/
theorem includeAnyKeys_markers (obj : Subject) (msg : String) :
    Assertion.includeAnyKeys obj msg ["fetchMock", "realFetch"] =
      if "fetchMock" ∈ obj.keys ∨ "realFetch" ∈ obj.keys then .ok ()
      else .error (.assertion msg none none) := by
  simp [Assertion.includeAnyKeys]

/-- The check `oneOf` passes exactly when the string is a member of the list. -/
theorem oneOf_eq (str msg : String) (list : List (Option String)) :
    Assertion.oneOf str msg list =
      if some str ∈ list then .ok () else .error (.assertion msg none none) := by
  simp [Assertion.oneOf]

/-- The behaviour of `route` on a fetch-mock object with a list of routes. -/
theorem route_of_markers (this : Chain) (rs : List Route) (str : String)
    (hkeys : "fetchMock" ∈ this._obj.keys ∨ "realFetch" ∈ this._obj.keys)
    (hroutes : this._obj.routes = some rs) :
    route str this =
      if some str ∈ rs.map (fun r => r.name) then (.ok .undefined, utils.setFlag this str)
      else (.error (unknownRoute str), this) := by
  unfold route
  rw [includeAnyKeys_markers, if_pos hkeys]
  simp only [hroutes, oneOf_eq]
  by_cases h : some str ∈ rs.map (fun r => r.name)
  · simp only [if_pos h]
  · simp only [if_neg h, unknownRoute]

/-- C3: on a subject with a capability marker and a list of routes, `route(name)`
fails with the UnknownRoute error exactly when no registered route is named
`name`; otherwise it completes and sets the flag of the chain to `name`.  Only
the set of names counts: a second list of routes with the same names, in any
order and with any repetitions, gives the same result. -/
theorem route_unknown_iff (this : Chain) (rs : List Route) (str : String)
    (hkeys : "fetchMock" ∈ this._obj.keys ∨ "realFetch" ∈ this._obj.keys)
    (hroutes : this._obj.routes = some rs) :
    ((route str this).1 = .error (unknownRoute str) ↔ ¬ ∃ r ∈ rs, r.name = some str) ∧
    ((route str this).passes = false ↔ ¬ ∃ r ∈ rs, r.name = some str) ∧
    ((∃ r ∈ rs, r.name = some str) →
      route str this = (.ok .undefined, utils.setFlag this str) ∧
      utils.flag (route str this).2 = some str) ∧
    (∀ (that : Chain) (rs2 : List Route),
      ("fetchMock" ∈ that._obj.keys ∨ "realFetch" ∈ that._obj.keys) →
      that._obj.routes = some rs2 →
      (∀ n : String, (∃ r ∈ rs, r.name = some n) ↔ (∃ r ∈ rs2, r.name = some n)) →
      (route str that).1 = (route str this).1 ∧
      ((route str this).passes = true →
        utils.flag (route str that).2 = utils.flag (route str this).2)) := by
  have hmem : ∀ (l : List Route) (n : String),
      some n ∈ l.map (fun r => r.name) ↔ ∃ r ∈ l, r.name = some n := by
    intro l n
    simp [List.mem_map]
  have hr := route_of_markers this rs str hkeys hroutes
  refine ⟨?_, ?_, ?_, ?_⟩
  · rw [hr, ← hmem]
    by_cases h : some str ∈ rs.map (fun r => r.name)
    · simp [h]
    · simp [h]
  · rw [hr, ← hmem]
    by_cases h : some str ∈ rs.map (fun r => r.name)
    · simp [h, Outcome.passes]
    · simp [h, Outcome.passes]
  · intro h
    rw [hr, if_pos ((hmem rs str).2 h)]
    exact ⟨rfl, rfl⟩
  · intro that rs2 hk2 hr2 hsame
    rw [hr, route_of_markers that rs2 str hk2 hr2]
    have hiff : some str ∈ rs2.map (fun r => r.name) ↔ some str ∈ rs.map (fun r => r.name) := by
      rw [hmem, hmem]
      exact (hsame str).symm
    by_cases h : some str ∈ rs.map (fun r => r.name)
    · simp [h, hiff.2 h, utils.flag, utils.setFlag]
    · have h2 : ¬ some str ∈ rs2.map (fun r => r.name) := fun h3 => h (hiff.1 h3)
      simp [h, h2, Outcome.passes]

/-- C4: on a subject with neither `fetchMock` nor `realFetch` among its keys,
`route(name)` fails with the ShapeMismatch error for every name, also one that
is the name of a route of the subject, and leaves the chain as it was: a flag
that was unset stays unset. -/
theorem route_shape_mismatch (this : Chain) (str : String)
    (h1 : "fetchMock" ∉ this._obj.keys) (h2 : "realFetch" ∉ this._obj.keys) :
    route str this = (.error (shapeMismatch this._obj), this) ∧
    (utils.flag this = none → utils.flag (route str this).2 = none) := by
  have hr : route str this = (.error (shapeMismatch this._obj), this) := by
    unfold route
    rw [includeAnyKeys_markers, if_neg (by simp [h1, h2])]
    rfl
  exact ⟨hr, fun h => by rw [hr]; exact h⟩

/-- C3 (witness): the test suite's fetch-mock object and the unregistered name `/nope`. -/
theorem route_unknown_iff_witness :
    ("fetchMock" ∈ (expect testMock)._obj.keys ∨ "realFetch" ∈ (expect testMock)._obj.keys) ∧
    (expect testMock)._obj.routes = some testRoutes ∧
    ((route "/nope" (expect testMock)).1 = .error (unknownRoute "/nope") ↔
      ¬ ∃ r ∈ testRoutes, r.name = some "/nope") :=
  ⟨by decide, rfl, (route_unknown_iff (expect testMock) _ "/nope" (by decide) rfl).1⟩

/-- C4 (witness): an object without a marker that has a route named `/cats`. -/
theorem route_shape_mismatch_witness :
    "fetchMock" ∉ (expect routesOnly)._obj.keys ∧
    "realFetch" ∉ (expect routesOnly)._obj.keys ∧
    route "/cats" (expect routesOnly) =
      (.error (.assertion "Expected [object Object] to be a fetch-mock object" none none),
        expect routesOnly) :=
  ⟨by decide, by decide, (route_shape_mismatch (expect routesOnly) "/cats" (by decide) (by decide)).1⟩

/-! ## The guard -/

/-- Dropping the returned value leaves the chain untouched. -/
theorem dropValue_chain (o : Outcome) : o.dropValue.2 = o.2 := by
  unfold Outcome.dropValue
  cases o.1 <;> rfl

/-- Dropping the returned value does not change whether the procedure passes. -/
theorem dropValue_passes (o : Outcome) : o.dropValue.passes = o.passes := by
  unfold Outcome.dropValue Outcome.passes
  cases o.1 <;> rfl

/-- Dropping the returned value does not change the error thrown. -/
theorem dropValue_error (o : Outcome) (e : Err) :
    o.dropValue.1 = .error e ↔ o.1 = .error e := by
  unfold Outcome.dropValue
  cases o.1 <;> simp

/-- A procedure that ends in `this.assert(...)` returns `undefined` already. -/
theorem dropValue_assert (this : Chain) (expr : Bool) (msg negateMsg : String)
    (expected actual : Option Val) :
    (Assertion.assert this expr msg negateMsg expected actual).dropValue =
      Assertion.assert this expr msg negateMsg expected actual := by
  unfold Assertion.assert Outcome.dropValue
  by_cases h : (if this.negate = true then !expr else expr) = true
  · simp [h]
  · simp [h]

/-- A procedure that ends in a check on a fresh assertion returns `undefined` already. -/
theorem dropValue_liftFresh (r : Except Err Unit) (this : Chain) :
    (liftFresh r this).dropValue = liftFresh r this := by
  unfold liftFresh Outcome.dropValue
  cases r <;> rfl

/-- On a chain whose flag is a non-empty name the guard runs the custom check
on that name and returns `undefined`. -/
theorem withFlagCheck_selected {A : Type} (callback : String → A → Chain → Outcome)
    (_super : A → Chain → Outcome) (a : A) (this : Chain) (name : String)
    (h : utils.flag this = some name) (hne : name ≠ "") :
    withFlagCheck callback _super a this = (callback name a this).dropValue := by
  simp [withFlagCheck, h, hne]

/-- On a chain whose flag is the empty string the guard runs the prior
implementation and returns `undefined`. -/
theorem withFlagCheck_empty {A : Type} (callback : String → A → Chain → Outcome)
    (_super : A → Chain → Outcome) (a : A) (this : Chain)
    (h : utils.flag this = some "") :
    withFlagCheck callback _super a this = (_super a this).dropValue := by
  simp [withFlagCheck, h]

/-- On a chain whose `fetchMock` flag is absent, a check built by `withFlagCheck`
from any custom check runs the prior implementation `_super` once on the same
arguments and the same chain and drops the value it returns: the same failure
or completion and the same chain afterwards, whatever the custom check is, and
`undefined` as the returned value.  This holds for the guard itself and for
`called`, `args`, `url` and `options`. -/
theorem guarded_unselected {A : Type} (chai : Chai) (this : Chain)
    (callback : String → A → Chain → Outcome) (superA : A → Chain → Outcome) (a : A)
    (superCalled : Unit → Chain → Outcome) (superArgs : Val → Chain → Outcome)
    (superUrl : String → Chain → Outcome) (superOptions : Val → Chain → Outcome)
    (expected : Val) (expectedUrl : String)
    (h : utils.flag this = none) :
    withFlagCheck callback superA a this = (superA a this).dropValue ∧
    called superCalled this = (superCalled () this).dropValue ∧
    args chai superArgs expected this = (superArgs expected this).dropValue ∧
    url superUrl expectedUrl this = (superUrl expectedUrl this).dropValue ∧
    options chai superOptions expected this = (superOptions expected this).dropValue := by
  simp [called, args, url, options, withFlagCheck, h]

/-- On a fresh chain the `url` check is the prior method: one that throws, and
one that notes each of its calls, which then finds exactly one note. -/
theorem guarded_unselected_sample :
    utils.flag (expect testMock) = none ∧
    url (notAFunction "url") "/cats" (expect testMock) =
      (.error (.thrown "url is not a function"), expect testMock) ∧
    (args sampleChai (recordCall "args") .undefined (expect testMock)).2.others =
      [("args", .null)] :=
  have w := guarded_unselected sampleChai (expect testMock) urlCallback (notAFunction "url")
    "/cats" noGetter (recordCall "args") (notAFunction "url") (notAFunction "options")
    .undefined "/cats" rfl
  ⟨rfl, by rw [w.2.2.2.1]; rfl, by rw [w.2.2.1]; rfl⟩

/-- C1 (failing input): on a fresh chain of the test suite's fetch-mock object,
where no route was selected, a prior method `args` of another plug-in returns
the string `prior-value` and leaves the chain as it is; the guarded `args`
runs it, leaves the chain as it is too, but returns `undefined`: the value of
the prior method is lost. -/
theorem guarded_unselected_drops_value :
    utils.flag (expect testMock) = none ∧
    priorValue .undefined (expect testMock) = (.ok (.str "prior-value"), expect testMock) ∧
    args sampleChai priorValue .undefined (expect testMock) =
      (.ok .undefined, expect testMock) ∧
    (args sampleChai priorValue .undefined (expect testMock)).1 ≠
      (priorValue .undefined (expect testMock)).1 := by
  refine ⟨rfl, rfl, rfl, ?_⟩
  intro h
  have h2 : (Except.ok Val.undefined : Except Err Val) = Except.ok (Val.str "prior-value") := h
  cases h2

/-- After a successful `route(name)` the chain is the old one with the flag set to `name`. -/
theorem route_passes_flag (this : Chain) (str : String)
    (h : (route str this).passes = true) :
    (route str this).2 = utils.setFlag this str := by
  unfold route at h ⊢
  cases hk : Assertion.includeAnyKeys this._obj
      ("Expected " ++ this._obj.toStr ++ " to be a fetch-mock object")
      ["fetchMock", "realFetch"] with
  | error e => simp [hk, Outcome.passes] at h
  | ok u =>
    cases hr : this._obj.routes with
    | none => simp [hk, hr, Outcome.passes] at h
    | some rs =>
      cases ho : Assertion.oneOf str ("Expected " ++ str ++ " to be a fetch-mock route")
          (rs.map (fun r => r.name)) with
      | error e => simp [hk, hr, ho, Outcome.passes] at h
      | ok v => simp [hk, hr, ho]

/-- A failing `route(name)` leaves the chain as it was. -/
theorem route_fails_chain (this : Chain) (str : String)
    (h : (route str this).passes = false) :
    (route str this).2 = this := by
  unfold route at h ⊢
  cases hk : Assertion.includeAnyKeys this._obj
      ("Expected " ++ this._obj.toStr ++ " to be a fetch-mock object")
      ["fetchMock", "realFetch"] with
  | error e => simp [hk]
  | ok u =>
    cases hr : this._obj.routes with
    | none => simp [hk, hr]
    | some rs =>
      cases ho : Assertion.oneOf str ("Expected " ++ str ++ " to be a fetch-mock route")
          (rs.map (fun r => r.name)) with
      | error e => simp [hk, hr, ho]
      | ok v => simp [hk, hr, ho, Outcome.passes] at h

/-! ## The four checks on a chain with a non-empty route name selected -/

/-- Whether it passes or fails, `this.assert(...)` leaves the chain as it was. -/
theorem assert_chain (this : Chain) (expr : Bool) (msg negateMsg : String)
    (expected actual : Option Val) :
    (Assertion.assert this expr msg negateMsg expected actual).2 = this := by
  unfold Assertion.assert
  by_cases h : (if this.negate = true then !expr else expr) = true
  · simp [h]
  · simp [h]

/-- The `called` check on a selected chain: it asks the subject about the selected name only. -/
theorem called_selected (_super : Unit → Chain → Outcome) (this : Chain) (name : String)
    (h : utils.flag this = some name) (hne : name ≠ "") :
    (called _super this).2 = this ∧
    (this.negate = false →
      ((called _super this).passes = true ↔ this._obj.called name = true)) ∧
    (this.negate = true →
      ((called _super this).passes = true ↔ this._obj.called name = false)) := by
  unfold called
  rw [withFlagCheck_selected _ _ _ _ name h hne, calledCallback, dropValue_assert]
  cases hn : this.negate <;> cases hc : this._obj.called name <;>
    simp [calledCallback, Assertion.assert, Outcome.passes, hn, hc]

/-- The `args` check on a selected chain: deep equality with `lastCall(name)`,
whatever the other flags of the chain are. -/
theorem args_selected (chai : Chai) (_super : Val → Chain → Outcome) (this : Chain)
    (name : String) (expected : Val)
    (h : utils.flag this = some name) (hne : name ≠ "") :
    (args chai _super expected this).2 = this ∧
    ((args chai _super expected this).passes = true ↔
      chai.eql expected (this._obj.lastCall name) = true) := by
  unfold args
  rw [withFlagCheck_selected _ _ _ _ name h hne, argsCallback, dropValue_liftFresh]
  cases hc : chai.eql expected (this._obj.lastCall name) <;>
    simp [argsCallback, liftFresh, Assertion.eql, Outcome.passes, hc]

/-- The `url` check on a selected chain: string equality with `lastUrl(name)`. -/
theorem url_selected (_super : String → Chain → Outcome) (this : Chain)
    (name : String) (expected : String)
    (h : utils.flag this = some name) (hne : name ≠ "") :
    (url _super expected this).2 = this ∧
    (this.negate = false →
      ((url _super expected this).passes = true ↔ this._obj.lastUrl name = some expected)) ∧
    (this.negate = true →
      ((url _super expected this).passes = true ↔ this._obj.lastUrl name ≠ some expected)) ∧
    (this.negate = false → this._obj.lastUrl name = none →
      (url _super expected this).passes = false) := by
  unfold url
  rw [withFlagCheck_selected _ _ _ _ name h hne, urlCallback, dropValue_assert]
  refine ⟨?_, ?_, ?_, ?_⟩
  · exact assert_chain _ _ _ _ _ _
  · intro hn
    by_cases hc : this._obj.lastUrl name = some expected <;>
      simp [urlCallback, Assertion.assert, Outcome.passes, hn, hc]
  · intro hn
    by_cases hc : this._obj.lastUrl name = some expected <;>
      simp [urlCallback, Assertion.assert, Outcome.passes, hn, hc]
  · intro hn hc
    simp [urlCallback, Assertion.assert, Outcome.passes, hn, hc]

/-- The `options` check on a selected chain: deep equality with `lastOptions(name)`,
whatever the other flags of the chain are. -/
theorem options_selected (chai : Chai) (_super : Val → Chain → Outcome) (this : Chain)
    (name : String) (expected : Val)
    (h : utils.flag this = some name) (hne : name ≠ "") :
    (options chai _super expected this).2 = this ∧
    ((options chai _super expected this).passes = true ↔
      chai.eql expected (this._obj.lastOptions name) = true) := by
  unfold options
  rw [withFlagCheck_selected _ _ _ _ name h hne, optionsCallback, dropValue_liftFresh]
  cases hc : chai.eql expected (this._obj.lastOptions name) <;>
    simp [optionsCallback, liftFresh, Assertion.eql, Outcome.passes, hc]

/-! ## A route named by the empty string

`route('')` succeeds on a subject with a route of that name and stores `''` in
the flag; `if (route)` in `withFlagCheck` then takes the `else` branch, so the
checks that follow run the prior implementation. -/

/-- C2 (failing input): on `unnamedCalled`, whose route is named `''`,
`route('')` succeeds and sets the flag to `''`; each of the four checks that
follow is then the prior implementation (here: a getter that does nothing for
`called`, a method that throws for `args`, `url` and `options`) and not the
custom check on the name `''`, which would have passed in all four cases. -/
theorem guarded_checks_empty_name :
    route "" (expect unnamedCalled) = (.ok .undefined, utils.setFlag (expect unnamedCalled) "") ∧
    utils.flag (utils.setFlag (expect unnamedCalled) "") = some "" ∧
    called noGetter (utils.setFlag (expect unnamedCalled) "") =
      noGetter () (utils.setFlag (expect unnamedCalled) "") ∧
    args sampleChai (notAFunction "args") (.arr [.str "/x", .obj [("method", .str "get")]])
        (utils.setFlag (expect unnamedCalled) "") =
      (.error (.thrown "args is not a function"), utils.setFlag (expect unnamedCalled) "") ∧
    url (notAFunction "url") "/x" (utils.setFlag (expect unnamedCalled) "") =
      (.error (.thrown "url is not a function"), utils.setFlag (expect unnamedCalled) "") ∧
    options sampleChai (notAFunction "options") (.obj [("method", .str "get")])
        (utils.setFlag (expect unnamedCalled) "") =
      (.error (.thrown "options is not a function"), utils.setFlag (expect unnamedCalled) "") ∧
    (argsCallback sampleChai "" (.arr [.str "/x", .obj [("method", .str "get")]])
        (utils.setFlag (expect unnamedCalled) "")).passes = true ∧
    (urlCallback "" "/x" (utils.setFlag (expect unnamedCalled) "")).passes = true ∧
    (optionsCallback sampleChai "" (.obj [("method", .str "get")])
        (utils.setFlag (expect unnamedCalled) "")).passes = true :=
  ⟨rfl, rfl, rfl, rfl, rfl, rfl, rfl, rfl, rfl⟩

/-- C5 (failing input): on `unnamedIdle`, whose route `''` was never called,
`route('')` succeeds and the positive `called` check that follows passes when
the prior getter does nothing, although `called('')` is false.  On
`unnamedCalled`, whose route `''` was called, the positive check fails when the
prior getter throws, although `called('')` is true. -/
theorem called_empty_name_passes :
    (route "" (expect unnamedIdle)).passes = true ∧
    (route "" (expect unnamedIdle)).2.negate = false ∧
    unnamedIdle.called "" = false ∧
    (called noGetter (route "" (expect unnamedIdle)).2).passes = true ∧
    (route "" (expect unnamedCalled)).passes = true ∧
    (route "" (expect unnamedCalled)).2.negate = false ∧
    unnamedCalled.called "" = true ∧
    (called (notAFunction "called") (route "" (expect unnamedCalled)).2).passes = false :=
  ⟨rfl, rfl, rfl, rfl, rfl, rfl, rfl, rfl⟩

/-- C6 (failing input): on `unnamedCalled`, `route('')` succeeds and `lastCall('')`
is structurally equal to the expected argument list, yet the `args` check that
follows fails: the prior method runs and throws. -/
theorem args_empty_name_fails :
    (route "" (expect unnamedCalled)).passes = true ∧
    sampleChai.eql (.arr [.str "/x", .obj [("method", .str "get")]])
      (unnamedCalled.lastCall "") = true ∧
    (args sampleChai (notAFunction "args") (.arr [.str "/x", .obj [("method", .str "get")]])
      (route "" (expect unnamedCalled)).2).1 = .error (.thrown "args is not a function") :=
  ⟨rfl, rfl, rfl⟩

/-- C7 (failing input): on `unnamedCalled`, `route('')` succeeds and `lastUrl('')`
is the expected URL `/x`, yet the positive `url` check that follows fails: the
prior method runs and throws. -/
theorem url_empty_name_fails :
    (route "" (expect unnamedCalled)).passes = true ∧
    (route "" (expect unnamedCalled)).2.negate = false ∧
    unnamedCalled.lastUrl "" = some "/x" ∧
    (url (notAFunction "url") "/x" (route "" (expect unnamedCalled)).2).1 =
      .error (.thrown "url is not a function") :=
  ⟨rfl, rfl, rfl, rfl⟩

/-- C8 (failing input): on `unnamedCalled`, `route('')` succeeds and
`lastOptions('')` is structurally equal to the expected options, yet the
`options` check that follows fails: the prior method runs and throws. -/
theorem options_empty_name_fails :
    (route "" (expect unnamedCalled)).passes = true ∧
    sampleChai.eql (.obj [("method", .str "get")]) (unnamedCalled.lastOptions "") = true ∧
    (options sampleChai (notAFunction "options") (.obj [("method", .str "get")])
      (route "" (expect unnamedCalled)).2).1 = .error (.thrown "options is not a function") :=
  ⟨rfl, rfl, rfl⟩

/-! ## The flag along a chain -/

/-- C9 (counterexample): on the fetch-mock object of the test suite,
`route('/cats')` sets the flag to `/cats`, and a later `route('/dogs')` on the
same chain succeeds and changes the flag to `/dogs`. -/
theorem flag_replaced_by_second_route :
    (route "/cats" (expect testMock)).passes = true ∧
    utils.flag (route "/cats" (expect testMock)).2 = some "/cats" ∧
    (route "/dogs" (route "/cats" (expect testMock)).2).passes = true ∧
    utils.flag (route "/dogs" (route "/cats" (expect testMock)).2).2 = some "/dogs" ∧
    utils.flag (route "/dogs" (route "/cats" (expect testMock)).2).2 ≠
      utils.flag (route "/cats" (expect testMock)).2 := by
  refine ⟨rfl, rfl, rfl, rfl, ?_⟩
  decide

/-- C9 (amended): a fresh chain has no flag and `.not` does not touch it.  Once
the flag of a chain is a non-empty name, `called`, `args`, `url` and `options`
leave it as it is, whether they pass or fail; a `route(str)` that fails leaves
it as it is, and a `route(str)` that succeeds replaces it by `str`; in no case
is the flag unset afterwards. -/
theorem flag_after_selection (chai : Chai) (this : Chain) (name : String)
    (superCalled : Unit → Chain → Outcome) (superArgs : Val → Chain → Outcome)
    (superUrl : String → Chain → Outcome) (superOptions : Val → Chain → Outcome)
    (expected : Val) (expectedUrl : String) (str : String) (obj : Subject)
    (h : utils.flag this = some name) (hne : name ≠ "") :
    utils.flag (expect obj) = none ∧
    utils.flag this.not = some name ∧
    utils.flag (called superCalled this).2 = some name ∧
    utils.flag (args chai superArgs expected this).2 = some name ∧
    utils.flag (url superUrl expectedUrl this).2 = some name ∧
    utils.flag (options chai superOptions expected this).2 = some name ∧
    ((route str this).passes = false → utils.flag (route str this).2 = some name) ∧
    ((route str this).passes = true → utils.flag (route str this).2 = some str) ∧
    utils.flag (route str this).2 ≠ none := by
  have hfail : (route str this).passes = false → utils.flag (route str this).2 = some name := by
    intro hp
    rw [route_fails_chain this str hp]
    exact h
  have hpass : (route str this).passes = true → utils.flag (route str this).2 = some str := by
    intro hp
    rw [route_passes_flag this str hp]
    rfl
  refine ⟨rfl, h, ?_, ?_, ?_, ?_, hfail, hpass, ?_⟩
  · rw [(called_selected superCalled this name h hne).1]
    exact h
  · rw [(args_selected chai superArgs this name expected h hne).1]
    exact h
  · rw [(url_selected superUrl this name expectedUrl h hne).1]
    exact h
  · rw [(options_selected chai superOptions this name expected h hne).1]
    exact h
  · cases hp : (route str this).passes with
    | false => rw [hfail hp]; simp
    | true => rw [hpass hp]; simp

/-- C9 (witness): the amended statement at the chain of the test suite after `route('/cats')`. -/
theorem flag_after_selection_witness :
    utils.flag (utils.setFlag (expect testMock) "/cats") = some "/cats" ∧
    "/cats" ≠ "" ∧
    utils.flag (url (notAFunction "url") "/cats" (utils.setFlag (expect testMock) "/cats")).2 =
      some "/cats" ∧
    utils.flag (route "/nope" (utils.setFlag (expect testMock) "/cats")).2 ≠ none :=
  have w := flag_after_selection sampleChai (utils.setFlag (expect testMock) "/cats") "/cats"
    noGetter (notAFunction "args") (notAFunction "url") (notAFunction "options")
    .undefined "/cats" "/nope" testMock rfl (by decide)
  ⟨rfl, by decide, w.2.2.2.2.1, w.2.2.2.2.2.2.2.2⟩

/-! ## What a failing `url` check reports -/

/-- The characters of a string end the characters of anything appended in front of it. -/
theorem data_suffix_append (p x : String) : x.data <:+ (p ++ x).data := by
  rw [String.data_append]
  exact List.suffix_append _ _

/-- The characters of a string start the characters of anything appended behind it. -/
theorem data_prefix_append (x q : String) : x.data <+: (x ++ q).data := by
  rw [String.data_append]
  exact List.prefix_append _ _

/-- The characters of a string occur inside a text built around it. -/
theorem data_infix_middle (p x q : String) : x.data <:+: (p ++ x ++ q).data := by
  simp only [String.data_append]
  exact ⟨p.data, q.data, rfl⟩

/-- C10 (counterexample): after `fetch('/unicorns/1')` the check
`route('unicorns')...url('/unicorns/2')` fails; its message names the route and
the expected URL `/unicorns/2`, and the actual URL `/unicorns/1` does not occur
in it: it is handed over as the actual value of the error. -/
theorem url_message_lacks_actual :
    (route "unicorns" (expect testMock)).passes = true ∧
    testMock.lastUrl "unicorns" = some "/unicorns/1" ∧
    (url (notAFunction "url") "/unicorns/2" (route "unicorns" (expect testMock)).2).1 =
      .error (.assertion "Expected route \"unicorns\" to have been called with URL /unicorns/2"
        (some (.str "/unicorns/2")) (some (.str "/unicorns/1"))) ∧
    ¬ ("/unicorns/1".data <:+:
      "Expected route \"unicorns\" to have been called with URL /unicorns/2".data) := by
  refine ⟨rfl, rfl, rfl, ?_⟩
  decide

/-- C10 (amended): on a chain whose flag is a non-empty name, a failing `url`
check, positive or negated, throws an assertion error that carries the expected
URL as its expected value and `lastUrl(name)` as its actual value; its message
is the positive or the negated text, which names the route and ends in the
expected URL. -/
theorem url_failure_report (_super : String → Chain → Outcome) (this : Chain)
    (name : String) (expected : String) (e : Err)
    (h : utils.flag this = some name) (hne : name ≠ "")
    (hfail : (url _super expected this).1 = .error e) :
    e.expected = some (.str expected) ∧
    e.actual = some (urlVal (this._obj.lastUrl name)) ∧
    (this.negate = false →
      e.message = "Expected route \"" ++ name ++ "\" to have been called with URL " ++ expected) ∧
    (this.negate = true →
      e.message =
        "Expected route \"" ++ name ++ "\" to not have been called with URL " ++ expected) ∧
    expected.data <:+ e.message.data ∧
    expected.data <:+: e.message.data ∧
    name.data <:+: e.message.data := by
  unfold url at hfail
  rw [withFlagCheck_selected _ _ _ _ name h hne, urlCallback, dropValue_assert] at hfail
  have key : e = .assertion
      (if this.negate then
        "Expected route \"" ++ name ++ "\" to not have been called with URL " ++ expected
      else "Expected route \"" ++ name ++ "\" to have been called with URL " ++ expected)
      (some (.str expected)) (some (urlVal (this._obj.lastUrl name))) := by
    simp only [urlCallback, Assertion.assert] at hfail
    cases hn : this.negate <;>
      by_cases hc : this._obj.lastUrl name = some expected <;>
      simp [hn, hc] at hfail <;>
      simp [← hfail, hc]
  cases hn : this.negate with
  | false =>
    have hm : e.message =
        "Expected route \"" ++ name ++ "\" to have been called with URL " ++ expected := by
      rw [key]
      simp [Err.message, hn]
    refine ⟨by rw [key]; rfl, by rw [key]; rfl, fun _ => hm, fun hf => by simp at hf, ?_, ?_, ?_⟩
    · rw [hm]
      exact data_suffix_append _ _
    · rw [hm]
      exact (data_suffix_append _ _).isInfix
    · rw [hm]
      exact (data_infix_middle _ _ _).trans (data_prefix_append _ _).isInfix
  | true =>
    have hm : e.message =
        "Expected route \"" ++ name ++ "\" to not have been called with URL " ++ expected := by
      rw [key]
      simp [Err.message, hn]
    refine ⟨by rw [key]; rfl, by rw [key]; rfl, fun hf => by simp at hf, fun _ => hm, ?_, ?_, ?_⟩
    · rw [hm]
      exact data_suffix_append _ _
    · rw [hm]
      exact (data_suffix_append _ _).isInfix
    · rw [hm]
      exact (data_infix_middle _ _ _).trans (data_prefix_append _ _).isInfix

/-- C10 (witness): the amended statement at the failing check of the test suite. -/
theorem url_failure_report_witness :
    utils.flag (utils.setFlag (expect testMock) "unicorns") = some "unicorns" ∧
    "unicorns" ≠ "" ∧
    (url (notAFunction "url") "/unicorns/2" (utils.setFlag (expect testMock) "unicorns")).1 =
      .error (.assertion "Expected route \"unicorns\" to have been called with URL /unicorns/2"
        (some (.str "/unicorns/2")) (some (.str "/unicorns/1"))) ∧
    (Err.assertion "Expected route \"unicorns\" to have been called with URL /unicorns/2"
        (some (.str "/unicorns/2")) (some (.str "/unicorns/1"))).actual =
      some (urlVal ((utils.setFlag (expect testMock) "unicorns")._obj.lastUrl "unicorns")) :=
  ⟨rfl, by decide, rfl,
    (url_failure_report (notAFunction "url") (utils.setFlag (expect testMock) "unicorns")
      "unicorns" "/unicorns/2" _ rfl (by decide) rfl).2.1⟩

/-! ## The scenarios of test.js

The chains of the test suite, run on the model; the prior implementations are
the ones of a Chai without any other plug-in. -/

/-- Scenarios of `describe('route()')`: the flag is set on the fetch-mock object,
and `route` throws on the empty object and on the route `/nope`. -/
theorem test_route :
    route "/cats" (expect testMock) = (.ok .undefined, utils.setFlag (expect testMock) "/cats") ∧
    (route "/cats" (expect emptyObject)).1 =
      .error (.assertion "Expected [object Object] to be a fetch-mock object" none none) ∧
    (route "/nope" (expect testMock)).1 =
      .error (.assertion "Expected /nope to be a fetch-mock route" none none) :=
  ⟨rfl, rfl, rfl⟩

/-- Scenarios of `describe('called')`: the check passes after a call to `/cats`
and fails, naming the route, when there was none. -/
theorem test_called :
    (called noGetter (route "/cats" (expect testMock2)).2).passes = true ∧
    (called noGetter (route "/cats" (expect testMock)).2).1 =
      .error (.assertion "Expected route \"/cats\" to have been called" none none) :=
  ⟨rfl, rfl⟩

/-- Scenarios of `describe('args()')`: after `called`, the check passes on the
exact arguments and fails when the call had one more field. -/
theorem test_args :
    (args sampleChai (notAFunction "args") (.arr [.str "/dogs", dogsOptions])
      (called noGetter (route "/dogs" (expect testMock)).2).2).passes = true ∧
    (called noGetter (route "/dogs" (expect testMock2)).2).passes = true ∧
    (args sampleChai (notAFunction "args") (.arr [.str "/dogs", dogsOptions])
      (called noGetter (route "/dogs" (expect testMock2)).2).2).passes = false :=
  ⟨rfl, rfl, rfl⟩

/-- Scenarios of `describe('url()')`: after `fetch('/unicorns/1')` the check
passes on `/unicorns/1` and fails on `/unicorns/2`. -/
theorem test_url :
    (url (notAFunction "url") "/unicorns/1"
      (called noGetter (route "unicorns" (expect testMock)).2).2).passes = true ∧
    (url (notAFunction "url") "/unicorns/2"
      (called noGetter (route "unicorns" (expect testMock)).2).2).passes = false :=
  ⟨rfl, rfl⟩

/-- Scenarios of `describe('options()')`: after `fetch('/cats', opts)` the check
passes on the same options and fails on the empty object. -/
theorem test_options :
    (options sampleChai (notAFunction "options") (.obj [("method", .str "get")])
      (called noGetter (route "/cats" (expect testMock2)).2).2).passes = true ∧
    (options sampleChai (notAFunction "options") (.obj [])
      (called noGetter (route "/cats" (expect testMock2)).2).2).passes = false :=
  ⟨rfl, rfl⟩

end ChaiFetchMock
